import Mathlib

/-!
Shallow embedding of the `ra_dec_to_alt_az` program (`src/main.rs`).

The program parses sexagesimal right-ascension/declination strings into
decimal degrees, computes an approximate local sidereal time, and converts
equatorial coordinates to horizontal (altitude/azimuth) coordinates.

Modelling conventions:
* Rust `f32` values are modelled exactly: by `ℚ` in the parser and the
  sidereal-time pipeline (which use only field operations and `%`), and by
  `ℝ` in the trigonometric converter.  All numeric literals of the source
  are decimal-exact, so no rounding behaviour is lost at the precision any
  claim speaks about.
* Rust's `%` on floats is the remainder with the sign of the dividend
  (truncated division); it is modelled by `rustRem` below.
* A Rust panic (out-of-bounds index `tokens[i]`) is a distinct outcome from
  a `Result::Err`; the embedding returns `DdError.indexPanic` for it and
  `DdError.parseFloatError` for the `ParseFloatError` propagated by `?`.
* `Utc::now()` is a clock read.  `calculate_days_since_j2000` and
  `calculate_local_sidereal_time` each perform one read in the source, so
  the embedding passes the read instant explicitly, and
  `coords_as_alt_az` is given the sequence of successive clock reads as a
  function `ℕ → Instant` (read `0` happens in `calculate_days_since_j2000`,
  read `1` in `calculate_local_sidereal_time`).
* Real division by zero is total in Lean (`x / 0 = 0`) whereas Rust `f32`
  produces `NaN`/`inf`; where a claim hinges on this (C4) the theorem
  exhibits the zero denominator itself, which is exact in both semantics.
-/

/-- The separator set of `input.split(&[' ', 'h', 'm', 's', '°', '′', '+', '-', '″'][..])`. -/
def sepChars : List Char := [' ', 'h', 'm', 's', '°', '′', '+', '-', '″']

/-- `let tokens: Vec<_> = input.split(sepChars).filter(|ch| !ch.is_empty()).collect();`
Rust `str::split` on a char set yields the (possibly empty) fragments between
separator occurrences, exactly `List.splitOnP`. -/
def tokensOf (input : String) : List (List Char) :=
  (input.data.splitOnP (fun c => sepChars.contains c)).filter (fun t => !t.isEmpty)

/-- Numeric value of a digit string (used by `parseFloat`). -/
def digitsVal (cs : List Char) : ℕ :=
  cs.foldl (fun n c => 10 * n + (c.toNat - '0'.toNat)) 0

/-- Model of `str::parse::<f32>()` on the tokens this program produces.
Tokens never contain a sign (both `+` and `-` are separator characters), so
the relevant grammar is a plain unsigned decimal: digits with at most one
`.` and at least one digit; the value is exact (`f32` rounding abstracted
to `ℚ`).  Any other token fails to parse, as in Rust. -/
def parseFloat (cs : List Char) : Option ℚ :=
  match cs.splitOnP (fun c => c == '.') with
  | [w] =>
    if w ≠ [] ∧ w.all (fun c => c.isDigit) then some ((digitsVal w : ℚ)) else none
  | [w, f] =>
    if (w ≠ [] ∨ f ≠ []) ∧ w.all (fun c => c.isDigit) ∧ f.all (fun c => c.isDigit) then
      some ((digitsVal w : ℚ) + (digitsVal f : ℚ) / (10 : ℚ) ^ f.length)
    else none
  | _ => none

/-- `enum Coord { RA, DEC }`. -/
inductive Coord where
  | RA : Coord
  | DEC : Coord
deriving DecidableEq

/-- Failure outcomes of `to_decimal_degrees`.  `indexPanic` models the Rust
panic raised by an out-of-bounds `tokens[i]`; `parseFloatError` models the
`ParseFloatError` returned through `?`. -/
inductive DdError where
  | indexPanic : DdError
  | parseFloatError : DdError
deriving DecidableEq

/-- `fn to_decimal_degrees(input: &str, coord_type: Coord) -> Result<f32, ParseFloatError>`.
The source indexes `tokens[0]`, `tokens[1]`, `tokens[2]` directly (panicking
when absent) and propagates parse failures with `?`; evaluation order is
index 0, parse 0, index 1, parse 1, index 2, parse 2. -/
def to_decimal_degrees (input : String) (coord_type : Coord) : Except DdError ℚ :=
  let tokens := tokensOf input
  match tokens[0]? with
  | none => Except.error DdError.indexPanic
  | some t0 =>
  match parseFloat t0 with
  | none => Except.error DdError.parseFloatError
  | some hours_or_degrees =>
  match tokens[1]? with
  | none => Except.error DdError.indexPanic
  | some t1 =>
  match parseFloat t1 with
  | none => Except.error DdError.parseFloatError
  | some mins =>
  match tokens[2]? with
  | none => Except.error DdError.indexPanic
  | some t2 =>
  match parseFloat t2 with
  | none => Except.error DdError.parseFloatError
  | some secs =>
  let in_degrees := hours_or_degrees + mins / 60 + secs / 3600
  if coord_type = Coord.RA then Except.ok (in_degrees * 15)
  else Except.ok in_degrees

/-- Truncation toward zero, as used by Rust's float `%`. -/
def rustTrunc (q : ℚ) : ℤ := if 0 ≤ q then ⌊q⌋ else ⌈q⌉

/-- Rust's `%` on floats: remainder with the sign of the dividend,
`a - b * trunc(a / b)`. -/
def rustRem (a b : ℚ) : ℚ := a - b * (rustTrunc (a / b) : ℚ)

/-- A UTC instant as the source consumes it: `(now - j2000).num_seconds`
together with the `hour()` and `minute()` components chrono derives from
the same instant. -/
structure Instant where
  secsSinceJ2000 : ℤ
  hour : ℕ
  minute : ℕ
deriving DecidableEq

/-- `fn calculate_days_since_j2000() -> f32`; the single `Utc::now()` read it
performs is passed explicitly. -/
def calculate_days_since_j2000 (now : Instant) : ℚ :=
  (now.secsSinceJ2000 : ℚ) / (24 * 3600)

/-- `fn calculate_local_sidereal_time(days_j2000: f32, long: f32) -> f32`;
the `Utc::now()` read it performs for `ut` is passed explicitly. -/
def calculate_local_sidereal_time (days_j2000 : ℚ) (long : ℚ) (now : Instant) : ℚ :=
  let fraction_of_hour : ℚ := (now.minute : ℚ) / 60
  let ut : ℚ := (now.hour : ℚ) + fraction_of_hour
  rustRem (100.46 + 0.985647 * days_j2000 + long + 15 * ut + 360) 360

/-- `struct GeoCoords { lat: f32, long: f32 }`. -/
structure GeoCoords where
  lat : ℚ
  long : ℚ

/-- `f32::to_radians`: `self * (PI / 180)`. -/
noncomputable def to_radians (x : ℝ) : ℝ := x * (Real.pi / 180)

/-- `f32::to_degrees`: `self * (180 / PI)`. -/
noncomputable def to_degrees (x : ℝ) : ℝ := x * (180 / Real.pi)

/-- The `prelim_alt` local of `calculate_alt_az`:
`sin(dec)·sin(lat) + cos(dec)·cos(lat)·cos(ha)` (all in radians). -/
noncomputable def prelim_alt (ha dec lat : ℝ) : ℝ :=
  Real.sin (to_radians dec) * Real.sin (to_radians lat)
    + Real.cos (to_radians dec) * Real.cos (to_radians lat) * Real.cos (to_radians ha)

/-- The `alt` local of `calculate_alt_az`: `prelim_alt.asin().to_degrees()`. -/
noncomputable def alt_deg (ha dec lat : ℝ) : ℝ :=
  to_degrees (Real.arcsin (prelim_alt ha dec lat))

/-- The argument of `acos` in the `prelim_az` computation:
`(sin(dec) - sin(alt)·sin(lat)) / (cos(alt)·cos(lat))`. -/
noncomputable def prelim_az_arg (ha dec lat : ℝ) : ℝ :=
  (Real.sin (to_radians dec)
      - Real.sin (to_radians (alt_deg ha dec lat)) * Real.sin (to_radians lat))
    / (Real.cos (to_radians (alt_deg ha dec lat)) * Real.cos (to_radians lat))

/-- The (shadowed) `prelim_az` local after `acos().to_degrees()`. -/
noncomputable def prelim_az_deg (ha dec lat : ℝ) : ℝ :=
  to_degrees (Real.arccos (prelim_az_arg ha dec lat))

/-- `fn calculate_alt_az(ha: f32, dec: f32, location: GeoCoords) -> (f32, f32)`.
Branch condition is literally `ha.to_radians().sin().to_degrees() < 0.0`;
the `sin < 0` branch returns `(az, alt)`, the other `(alt, az)`. -/
noncomputable def calculate_alt_az (ha dec : ℝ) (location : GeoCoords) : ℝ × ℝ :=
  if to_degrees (Real.sin (to_radians ha)) < 0 then
    (prelim_az_deg ha dec (location.lat : ℝ), alt_deg ha dec (location.lat : ℝ))
  else
    (alt_deg ha dec (location.lat : ℝ), 360 - prelim_az_deg ha dec (location.lat : ℝ))

/-- `struct AstroObject<'a> { name, right_ascension: f32, declination: f32 }`. -/
structure AstroObject where
  name : String
  right_ascension : ℚ
  declination : ℚ

/-- `AstroObject::coords_as_alt_az`.  The source calls
`calculate_days_since_j2000()` (clock read 0) and then
`calculate_local_sidereal_time(days, long)` (clock read 1), so the embedding
threads the sequence of clock reads. -/
noncomputable def coords_as_alt_az (self : AstroObject) (location_info : GeoCoords)
    (clock : ℕ → Instant) : ℝ × ℝ :=
  let days_j2000 := calculate_days_since_j2000 (clock 0)
  let local_sidereal_time :=
    calculate_local_sidereal_time days_j2000 location_info.long (clock 1)
  let hour_angle := local_sidereal_time - self.right_ascension
  let hour_angle := if hour_angle < 0 then hour_angle + 360 else hour_angle
  calculate_alt_az ((hour_angle : ℚ) : ℝ) ((self.declination : ℚ) : ℝ) location_info

/-! ### General helper lemmas -/

theorem to_degrees_zero : to_degrees 0 = 0 := by
  rw [to_degrees]; ring

theorem to_degrees_pi_div_two : to_degrees (Real.pi / 2) = 90 := by
  rw [to_degrees]
  field_simp
  ring

theorem to_degrees_neg_pi_div_six : to_degrees (-(Real.pi / 6)) = -30 := by
  rw [to_degrees]
  field_simp
  ring

theorem to_degrees_neg_iff (x : ℝ) : to_degrees x < 0 ↔ x < 0 := by
  rw [to_degrees]
  constructor
  · intro h
    by_contra hx
    push_neg at hx
    nlinarith [Real.pi_pos, mul_nonneg hx (by positivity : (0:ℝ) ≤ 180 / Real.pi)]
  · intro h
    have hc : (0:ℝ) < 180 / Real.pi := by positivity
    nlinarith

theorem to_radians_zero : to_radians 0 = 0 := by
  rw [to_radians]; ring

theorem to_radians_ninety : to_radians 90 = Real.pi / 2 := by
  rw [to_radians]; ring

theorem to_radians_onetwenty : to_radians 120 = Real.pi - Real.pi / 3 := by
  rw [to_radians]; ring

theorem to_radians_twoseventy : to_radians 270 = Real.pi + Real.pi / 2 := by
  rw [to_radians]; ring

theorem rustRem_bounds (a b : ℚ) (ha : 0 ≤ a) (hb : 0 < b) :
    0 ≤ rustRem a b ∧ rustRem a b < b := by
  have hba : b * (a / b) = a := by field_simp
  rw [rustRem, rustTrunc, if_pos (div_nonneg ha hb.le)]
  have h1 : ((⌊a / b⌋ : ℚ)) ≤ a / b := Int.floor_le _
  have h2 : a / b < (⌊a / b⌋ : ℚ) + 1 := Int.lt_floor_add_one _
  have h3 := mul_le_mul_of_nonneg_left h1 hb.le
  have h4 := mul_lt_mul_of_pos_left h2 hb
  constructor <;> nlinarith

theorem rustRem_congr (r c : ℚ) (hc : rustRem c 360 = r) :
    ∀ x : ℚ, x = c → rustRem x 360 = r := by
  rintro x rfl; exact hc

theorem rustRem_450 : rustRem 450 360 = 90 := by
  have h : rustTrunc ((450 : ℚ) / 360) = 1 := by
    rw [rustTrunc, if_pos (by norm_num), Int.floor_eq_iff]
    norm_num
  rw [rustRem, h]
  push_cast
  norm_num

theorem rustRem_480 : rustRem 480 360 = 120 := by
  have h : rustTrunc ((480 : ℚ) / 360) = 1 := by
    rw [rustTrunc, if_pos (by norm_num), Int.floor_eq_iff]
    norm_num
  rw [rustRem, h]
  push_cast
  norm_num

theorem rustRem_46046 : rustRem 460.46 360 = 100.46 := by
  have h : rustTrunc ((460.46 : ℚ) / 360) = 1 := by
    rw [rustTrunc, if_pos (by norm_num), Int.floor_eq_iff]
    norm_num
  rw [rustRem, h]
  push_cast
  norm_num

theorem rustRem_neg939601 : rustRem (-9396.01) 360 = -36.01 := by
  have h : rustTrunc ((-9396.01 : ℚ) / 360) = -26 := by
    rw [rustTrunc, if_neg (by norm_num), Int.ceil_eq_iff]
    norm_num
  rw [rustRem, h]
  push_cast
  norm_num

/-! ### Concrete evaluations of the converter -/

theorem prelim_az_arg_lat_zero (ha : ℝ) : prelim_az_arg ha 0 0 = 0 := by
  rw [prelim_az_arg, to_radians_zero]
  simp

theorem prelim_az_deg_lat_zero (ha : ℝ) : prelim_az_deg ha 0 0 = 90 := by
  rw [prelim_az_deg, prelim_az_arg_lat_zero, Real.arccos_zero, to_degrees_pi_div_two]

theorem alt_deg_ninety : alt_deg 90 0 0 = 0 := by
  rw [alt_deg, prelim_alt, to_radians_zero, to_radians_ninety]
  simp [Real.cos_pi_div_two, to_degrees_zero]

theorem alt_deg_twoseventy : alt_deg 270 0 0 = 0 := by
  rw [alt_deg, prelim_alt, to_radians_zero, to_radians_twoseventy]
  simp [Real.cos_add, to_degrees_zero]

theorem alt_deg_onetwenty : alt_deg 120 0 0 = -30 := by
  rw [alt_deg, prelim_alt, to_radians_zero, to_radians_onetwenty]
  have ha : Real.arcsin (-(1 / 2)) = -(Real.pi / 6) := by
    rw [show (-(1 / 2) : ℝ) = Real.sin (-(Real.pi / 6)) by simp [Real.sin_pi_div_six]]
    exact Real.arcsin_sin (by linarith [Real.pi_pos]) (by linarith [Real.pi_pos])
  simp only [Real.sin_zero, Real.cos_zero, Real.cos_pi_sub, Real.cos_pi_div_three,
    zero_mul, one_mul, mul_neg, zero_add, mul_one]
  rw [ha, to_degrees_neg_pi_div_six]

theorem alt_deg_pole : alt_deg 0 0 90 = 0 := by
  rw [alt_deg, prelim_alt, to_radians_zero, to_radians_ninety]
  simp [Real.cos_pi_div_two, to_degrees_zero]

theorem prelim_az_deg_pole : prelim_az_deg 0 0 90 = 90 := by
  rw [prelim_az_deg, prelim_az_arg, alt_deg_pole, to_radians_zero]
  simp [Real.arccos_zero, to_degrees_pi_div_two]

theorem sin_branch_ninety : ¬ to_degrees (Real.sin (to_radians 90)) < 0 := by
  rw [to_radians_ninety, Real.sin_pi_div_two, to_degrees_neg_iff]
  norm_num

theorem sin_branch_twoseventy : to_degrees (Real.sin (to_radians 270)) < 0 := by
  rw [to_radians_twoseventy, to_degrees_neg_iff]
  have hs : Real.sin (Real.pi + Real.pi / 2) = -1 := by
    simp [Real.sin_add]
  rw [hs]
  norm_num

theorem sin_branch_onetwenty : ¬ to_degrees (Real.sin (to_radians 120)) < 0 := by
  rw [to_radians_onetwenty, Real.sin_pi_sub, to_degrees_neg_iff, not_lt]
  exact le_of_lt (Real.sin_pos_of_pos_of_lt_pi (by positivity) (by linarith [Real.pi_pos]))

theorem sin_branch_zero : ¬ to_degrees (Real.sin (to_radians 0)) < 0 := by
  rw [to_radians_zero, Real.sin_zero, to_degrees_zero]
  norm_num

theorem calc_alt_az_ninety (loc : GeoCoords) (hlat : loc.lat = 0) :
    calculate_alt_az 90 0 loc = (0, 270) := by
  have hl : ((loc.lat : ℚ) : ℝ) = 0 := by rw [hlat]; norm_num
  rw [calculate_alt_az, if_neg sin_branch_ninety, hl, alt_deg_ninety, prelim_az_deg_lat_zero]
  norm_num

theorem calc_alt_az_twoseventy (loc : GeoCoords) (hlat : loc.lat = 0) :
    calculate_alt_az 270 0 loc = (90, 0) := by
  have hl : ((loc.lat : ℚ) : ℝ) = 0 := by rw [hlat]; norm_num
  rw [calculate_alt_az, if_pos sin_branch_twoseventy, hl, alt_deg_twoseventy,
    prelim_az_deg_lat_zero]

theorem calc_alt_az_onetwenty (loc : GeoCoords) (hlat : loc.lat = 0) :
    calculate_alt_az 120 0 loc = (-30, 270) := by
  have hl : ((loc.lat : ℚ) : ℝ) = 0 := by rw [hlat]; norm_num
  rw [calculate_alt_az, if_neg sin_branch_onetwenty, hl, alt_deg_onetwenty,
    prelim_az_deg_lat_zero]
  norm_num

theorem calc_alt_az_pole (loc : GeoCoords) (hlat : loc.lat = 90) :
    calculate_alt_az 0 0 loc = (0, 270) := by
  have hl : ((loc.lat : ℚ) : ℝ) = 90 := by rw [hlat]; norm_num
  rw [calculate_alt_az, if_neg sin_branch_zero, hl, alt_deg_pole, prelim_az_deg_pole]
  norm_num

/-! ### Concrete evaluations of the sidereal-time pipeline -/

theorem lst_eval_long_zero :
    calculate_local_sidereal_time (calculate_days_since_j2000 ⟨0, 0, 0⟩) 0 ⟨0, 0, 0⟩
      = 100.46 := by
  simp only [calculate_local_sidereal_time, calculate_days_since_j2000]
  refine rustRem_congr _ 460.46 rustRem_46046 _ ?_
  push_cast
  norm_num

theorem lst_eval_read_zero :
    calculate_local_sidereal_time (calculate_days_since_j2000 ⟨0, 0, 0⟩) (-10.46) ⟨0, 0, 0⟩
      = 90 := by
  simp only [calculate_local_sidereal_time, calculate_days_since_j2000]
  refine rustRem_congr _ 450 rustRem_450 _ ?_
  push_cast
  norm_num

theorem lst_eval_read_two :
    calculate_local_sidereal_time (calculate_days_since_j2000 ⟨0, 0, 0⟩) (-10.46) ⟨0, 2, 0⟩
      = 120 := by
  simp only [calculate_local_sidereal_time, calculate_days_since_j2000]
  refine rustRem_congr _ 480 rustRem_480 _ ?_
  push_cast
  norm_num

/-! ### Parser evaluation and the general token formula -/

theorem to_decimal_degrees_formula (input : String) (t0 t1 t2 : List Char) (q0 q1 q2 : ℚ)
    (h0 : (tokensOf input)[0]? = some t0) (h1 : (tokensOf input)[1]? = some t1)
    (h2 : (tokensOf input)[2]? = some t2)
    (p0 : parseFloat t0 = some q0) (p1 : parseFloat t1 = some q1)
    (p2 : parseFloat t2 = some q2) :
    to_decimal_degrees input Coord.DEC = Except.ok (q0 + q1 / 60 + q2 / 3600) ∧
    to_decimal_degrees input Coord.RA = Except.ok ((q0 + q1 / 60 + q2 / 3600) * 15) := by
  constructor <;> simp [to_decimal_degrees, h0, h1, h2, p0, p1, p2]

/-! ### Claims -/

/-- Claim C1: the claim states that parsing a declination string with a leading
minus sign returns a negative value.  The code refutes this: `'-'` is in the
separator set, so the sign is tokenized away before any sign detection could
happen, and `"-22° 00′ 52.2″"` parses to the positive value `22.0145`. -/
theorem c1_negative_declination_sign_lost :
    to_decimal_degrees "-22° 00′ 52.2″" Coord.DEC = Except.ok (44029 / 2000) ∧
    ¬ (44029 / 2000 : ℚ) < 0 := by
  constructor
  · have he : to_decimal_degrees "-22° 00′ 52.2″" Coord.DEC =
        Except.ok (((22 : ℕ) : ℚ) + ((0 : ℕ) : ℚ) / 60 +
          (((52 : ℕ) : ℚ) + ((2 : ℕ) : ℚ) / (10 : ℚ) ^ (1 : ℕ)) / 3600) := rfl
    rw [he]
    norm_num
  · norm_num

/-- Claim C2: the claim states that inputs with fewer than 3 tokens yield a
malformed-input error and the out-of-bounds branch is unreachable.  The code
refutes this: `"1 2"` tokenizes to 2 tokens and `tokens[2]` is an
out-of-bounds index, i.e. a Rust panic (`DdError.indexPanic`), not an error
value; likewise `""` panics at `tokens[0]`. -/
theorem c2_short_input_reaches_index_panic :
    to_decimal_degrees "1 2" Coord.DEC = Except.error DdError.indexPanic ∧
    to_decimal_degrees "" Coord.DEC = Except.error DdError.indexPanic ∧
    (tokensOf "1 2").length = 2 := by
  exact ⟨rfl, rfl, by decide⟩

/-- Claim C5: for any input whose token list has exactly three tokens, each
parsing as a number, the parser returns `whole + minutes/60 + seconds/3600`
for `DEC` and that value times 15 for `RA`; and concretely
`parse("05h 34m 31.94s", RA)` is within `1e-3` of `83.6331` degrees. -/
theorem c5_three_token_formula (input : String) (t0 t1 t2 : List Char) (q0 q1 q2 : ℚ)
    (hlen : (tokensOf input).length = 3)
    (h0 : (tokensOf input)[0]? = some t0) (h1 : (tokensOf input)[1]? = some t1)
    (h2 : (tokensOf input)[2]? = some t2)
    (p0 : parseFloat t0 = some q0) (p1 : parseFloat t1 = some q1)
    (p2 : parseFloat t2 = some q2) :
    (to_decimal_degrees input Coord.DEC = Except.ok (q0 + q1 / 60 + q2 / 3600) ∧
     to_decimal_degrees input Coord.RA = Except.ok ((q0 + q1 / 60 + q2 / 3600) * 15)) ∧
    (to_decimal_degrees "05h 34m 31.94s" Coord.RA = Except.ok (1003597 / 12000) ∧
     |(1003597 / 12000 : ℚ) - 836331 / 10000| ≤ 1 / 1000) := by
  refine ⟨to_decimal_degrees_formula input t0 t1 t2 q0 q1 q2 h0 h1 h2 p0 p1 p2, ?_, ?_⟩
  · have he : to_decimal_degrees "05h 34m 31.94s" Coord.RA =
        Except.ok ((((5 : ℕ) : ℚ) + ((34 : ℕ) : ℚ) / 60 +
          (((31 : ℕ) : ℚ) + ((94 : ℕ) : ℚ) / (10 : ℚ) ^ (2 : ℕ)) / 3600) * 15) := rfl
    rw [he]
    norm_num
  · rw [abs_le]
    constructor <;> norm_num

/-- Claim C5 witness: the formula theorem applied to the concrete input
`"05h 34m 31.94s"`, whose three tokens are `05`, `34` and `31.94`. -/
theorem c5_three_token_formula_witness :
    (to_decimal_degrees "05h 34m 31.94s" Coord.DEC =
        Except.ok (((5 : ℕ) : ℚ) + ((34 : ℕ) : ℚ) / 60 +
          (((31 : ℕ) : ℚ) + ((94 : ℕ) : ℚ) / (10 : ℚ) ^ (2 : ℕ)) / 3600) ∧
     to_decimal_degrees "05h 34m 31.94s" Coord.RA =
        Except.ok ((((5 : ℕ) : ℚ) + ((34 : ℕ) : ℚ) / 60 +
          (((31 : ℕ) : ℚ) + ((94 : ℕ) : ℚ) / (10 : ℚ) ^ (2 : ℕ)) / 3600) * 15)) ∧
    (to_decimal_degrees "05h 34m 31.94s" Coord.RA = Except.ok (1003597 / 12000) ∧
     |(1003597 / 12000 : ℚ) - 836331 / 10000| ≤ 1 / 1000) :=
  c5_three_token_formula "05h 34m 31.94s" ['0', '5'] ['3', '4'] ['3', '1', '.', '9', '4']
    ((5 : ℕ) : ℚ) ((34 : ℕ) : ℚ) (((31 : ℕ) : ℚ) + ((94 : ℕ) : ℚ) / (10 : ℚ) ^ (2 : ℕ))
    (by decide) (by decide) (by decide) (by decide) rfl rfl rfl

/-- Claim C10: when the input tokenizes into more than 3 tokens, the parser
silently uses tokens 0, 1, 2 and returns `Ok` of the usual formula, ignoring
the rest. -/
theorem c10_extra_tokens_ignored (input : String) (t0 t1 t2 : List Char) (q0 q1 q2 : ℚ)
    (hlen : 3 < (tokensOf input).length)
    (h0 : (tokensOf input)[0]? = some t0) (h1 : (tokensOf input)[1]? = some t1)
    (h2 : (tokensOf input)[2]? = some t2)
    (p0 : parseFloat t0 = some q0) (p1 : parseFloat t1 = some q1)
    (p2 : parseFloat t2 = some q2) :
    to_decimal_degrees input Coord.DEC = Except.ok (q0 + q1 / 60 + q2 / 3600) ∧
    to_decimal_degrees input Coord.RA = Except.ok ((q0 + q1 / 60 + q2 / 3600) * 15) :=
  to_decimal_degrees_formula input t0 t1 t2 q0 q1 q2 h0 h1 h2 p0 p1 p2

/-- Claim C10 witness: `"1 2 3 4"` has four tokens and parses to
`1 + 2/60 + 3/3600` (DEC), ignoring the fourth token. -/
theorem c10_extra_tokens_ignored_witness :
    to_decimal_degrees "1 2 3 4" Coord.DEC =
        Except.ok (((1 : ℕ) : ℚ) + ((2 : ℕ) : ℚ) / 60 + ((3 : ℕ) : ℚ) / 3600) ∧
    to_decimal_degrees "1 2 3 4" Coord.RA =
        Except.ok ((((1 : ℕ) : ℚ) + ((2 : ℕ) : ℚ) / 60 + ((3 : ℕ) : ℚ) / 3600) * 15) :=
  c10_extra_tokens_ignored "1 2 3 4" ['1'] ['2'] ['3']
    ((1 : ℕ) : ℚ) ((2 : ℕ) : ℚ) ((3 : ℕ) : ℚ)
    (by decide) (by decide) (by decide) (by decide) rfl rfl rfl

/-- Claim C6 counterexample: the claim as stated quantifies over all finite
days-since-epoch including large negative values, but Rust's `%` keeps the
sign of the dividend, so at `days = -10000`, `long = 0`, `UT = 0` the
computed local sidereal time is `-36.01`, outside `[0, 360)`. -/
theorem c6_lst_negative_counterexample :
    calculate_local_sidereal_time (-10000) 0 ⟨0, 0, 0⟩ = -36.01 ∧
    calculate_local_sidereal_time (-10000) 0 ⟨0, 0, 0⟩ < 0 := by
  have he : calculate_local_sidereal_time (-10000) 0 ⟨0, 0, 0⟩ = -36.01 := by
    simp only [calculate_local_sidereal_time, calculate_days_since_j2000]
    refine rustRem_congr _ (-9396.01) rustRem_neg939601 _ ?_
    push_cast
    norm_num
  refine ⟨he, ?_⟩
  rw [he]
  norm_num

/-- Claim C6 (amended): the local sidereal time lies in `[0, 360)` whenever
the pre-modulo sum `100.46 + 0.985647·days + longitude + 15·UT + 360` is
nonnegative (which holds for every instant at or after J2000 with the
longitudes the program uses); for more negative sums the Rust `%` returns a
negative remainder. -/
theorem c6_lst_range (days_j2000 long : ℚ) (now : Instant)
    (h : 0 ≤ 100.46 + 0.985647 * days_j2000 + long
        + 15 * ((now.hour : ℚ) + (now.minute : ℚ) / 60) + 360) :
    0 ≤ calculate_local_sidereal_time days_j2000 long now ∧
    calculate_local_sidereal_time days_j2000 long now < 360 := by
  simp only [calculate_local_sidereal_time]
  exact rustRem_bounds _ 360 h (by norm_num)

/-- Claim C6 witness: at `days = 0`, `long = 0`, `UT = 0` the hypothesis
holds and the sidereal time is in range. -/
theorem c6_lst_range_witness :
    0 ≤ calculate_local_sidereal_time 0 0 ⟨0, 0, 0⟩ ∧
    calculate_local_sidereal_time 0 0 ⟨0, 0, 0⟩ < 360 :=
  c6_lst_range 0 0 ⟨0, 0, 0⟩ (by push_cast; norm_num)

/-- Claim C3: the claim states the converter returns its two results in one
consistent (altitude, azimuth) order across both quadrant branches.  The
code refutes this: at `ha = 90` (the `sin ≥ 0` branch) the altitude is the
first component, while at `ha = 270` (the `sin < 0` branch) the altitude is
the second component and the first is the azimuth — the tuple order swaps
between branches. -/
theorem c3_inconsistent_tuple_order :
    (calculate_alt_az 90 0 ⟨0, 0⟩).1 = alt_deg 90 0 ((0 : ℚ) : ℝ) ∧
    (calculate_alt_az 270 0 ⟨0, 0⟩).1 ≠ alt_deg 270 0 ((0 : ℚ) : ℝ) ∧
    (calculate_alt_az 270 0 ⟨0, 0⟩).2 = alt_deg 270 0 ((0 : ℚ) : ℝ) ∧
    (calculate_alt_az 90 0 ⟨0, 0⟩).2 ≠ alt_deg 90 0 ((0 : ℚ) : ℝ) := by
  have h9 := calc_alt_az_ninety ⟨0, 0⟩ rfl
  have h27 := calc_alt_az_twoseventy ⟨0, 0⟩ rfl
  have hc : ((0 : ℚ) : ℝ) = 0 := by norm_num
  rw [h9, h27, hc, alt_deg_ninety, alt_deg_twoseventy]
  norm_num

/-- Claim C4: the claim states the converter surfaces a domain error or a
defined fallback when the azimuth denominator `cos(alt)·cos(lat)` vanishes
(e.g. latitude 90).  The code refutes this: at `ha = 0`, `dec = 0`,
`lat = 90` that denominator is exactly `0`, yet `calculate_alt_az` has no
error channel and returns a plain pair anyway (in Rust `f32` the division
`0.0/0.0` produces NaN which flows into `acos`; in this exact embedding
`x / 0 = 0`, making the silently returned pair `(0, 270)`). -/
theorem c4_denominator_zero_unguarded :
    Real.cos (to_radians (alt_deg 0 0 ((90 : ℚ) : ℝ)))
        * Real.cos (to_radians ((90 : ℚ) : ℝ)) = 0 ∧
    calculate_alt_az 0 0 ⟨90, 0⟩ = (0, 270) := by
  have hc : ((90 : ℚ) : ℝ) = 90 := by norm_num
  constructor
  · rw [hc, alt_deg_pole, to_radians_zero, to_radians_ninety]
    simp [Real.cos_pi_div_two]
  · exact calc_alt_az_pole ⟨90, 0⟩ rfl

/-- Claim C7: wherever the preliminary azimuth
`az' = acos((sin dec − sin alt · sin lat)/(cos alt · cos lat))` is defined,
the azimuth value the converter produces is `az'` when `sin(hourAngle) < 0`
(there it is the first tuple component) and `360 − az'` otherwise (there it
is the second component). -/
theorem c7_azimuth_quadrant_correction (ha dec : ℝ) (loc : GeoCoords)
    (hdenom : Real.cos (to_radians (alt_deg ha dec (loc.lat : ℝ)))
        * Real.cos (to_radians (loc.lat : ℝ)) ≠ 0)
    (harg : |prelim_az_arg ha dec (loc.lat : ℝ)| ≤ 1) :
    (Real.sin (to_radians ha) < 0 →
      (calculate_alt_az ha dec loc).1 = prelim_az_deg ha dec (loc.lat : ℝ)) ∧
    (0 ≤ Real.sin (to_radians ha) →
      (calculate_alt_az ha dec loc).2 = 360 - prelim_az_deg ha dec (loc.lat : ℝ)) := by
  constructor
  · intro h
    rw [calculate_alt_az, if_pos ((to_degrees_neg_iff _).mpr h)]
  · intro h
    rw [calculate_alt_az, if_neg (by rw [to_degrees_neg_iff]; exact not_lt.mpr h)]

/-- Claim C7 witness: at `ha = 90`, `dec = 0`, `lat = 0` the preliminary
azimuth is defined (denominator 1, acos argument 0) and the quadrant
correction applies as stated. -/
theorem c7_azimuth_quadrant_correction_witness :
    (Real.sin (to_radians 90) < 0 →
      (calculate_alt_az 90 0 ⟨0, 0⟩).1 = prelim_az_deg 90 0 ((0 : ℚ) : ℝ)) ∧
    (0 ≤ Real.sin (to_radians 90) →
      (calculate_alt_az 90 0 ⟨0, 0⟩).2 = 360 - prelim_az_deg 90 0 ((0 : ℚ) : ℝ)) :=
  c7_azimuth_quadrant_correction 90 0 ⟨0, 0⟩
    (by simp [alt_deg_ninety, to_radians_zero])
    (by simp [prelim_az_arg_lat_zero])

/-- Claim C8: `coords_as_alt_az` computes the hour angle as
`localSiderealTime − rightAscension`, adds 360 exactly when that difference
is negative, and delegates the normalized hour angle together with the
stored declination and the location to `calculate_alt_az`; with the data
model's `rightAscension ∈ [0, 360]`, the hour angle passed on lies in
`[0, 360)` whenever the local sidereal time does. -/
theorem c8_hour_angle_normalization (self : AstroObject) (loc : GeoCoords)
    (clock : ℕ → Instant) (lst ha : ℚ)
    (hlst : lst = calculate_local_sidereal_time
        (calculate_days_since_j2000 (clock 0)) loc.long (clock 1))
    (hha : ha = if lst - self.right_ascension < 0 then lst - self.right_ascension + 360
        else lst - self.right_ascension)
    (hra0 : 0 ≤ self.right_ascension) (hra1 : self.right_ascension ≤ 360) :
    coords_as_alt_az self loc clock
        = calculate_alt_az ((ha : ℚ) : ℝ) ((self.declination : ℚ) : ℝ) loc ∧
    (0 ≤ lst → lst < 360 → 0 ≤ ha ∧ ha < 360) := by
  constructor
  · subst hha
    subst hlst
    rfl
  · intro hl0 hl1
    subst hha
    split_ifs with h
    · constructor <;> linarith
    · push_neg at h
      constructor <;> linarith

/-- Claim C8 witness: an object with right ascension 50 observed at
longitude 0 with both clock reads at the J2000 epoch gives sidereal time
100.46 and normalized hour angle 50.46, delegated to the converter. -/
theorem c8_hour_angle_normalization_witness :
    coords_as_alt_az ⟨"M1", 50, 10⟩ ⟨0, 0⟩ (fun _ => ⟨0, 0, 0⟩)
        = calculate_alt_az ((50.46 : ℚ) : ℝ) ((10 : ℚ) : ℝ) ⟨0, 0⟩ ∧
    (0 ≤ (100.46 : ℚ) → (100.46 : ℚ) < 360 → 0 ≤ (50.46 : ℚ) ∧ (50.46 : ℚ) < 360) :=
  c8_hour_angle_normalization ⟨"M1", 50, 10⟩ ⟨0, 0⟩ (fun _ => ⟨0, 0, 0⟩) 100.46 50.46
    (by exact lst_eval_long_zero.symm) (by norm_num) (by norm_num) (by norm_num)

/-- Claim C9: the claim states the query reads the clock exactly once and
threads that single instant through both the days-since-epoch and the
sidereal-time computations.  The code refutes this: `Utc::now()` is called
separately inside `calculate_days_since_j2000` and inside
`calculate_local_sidereal_time`, so two read sequences that agree on the
first read but differ on the second produce different results. -/
theorem c9_clock_sampled_twice :
    (fun _ : ℕ => (⟨0, 0, 0⟩ : Instant)) 0
        = (fun n : ℕ => if n = 0 then (⟨0, 0, 0⟩ : Instant) else ⟨0, 2, 0⟩) 0 ∧
    coords_as_alt_az ⟨"M1", 0, 0⟩ ⟨0, -10.46⟩ (fun _ => ⟨0, 0, 0⟩) ≠
      coords_as_alt_az ⟨"M1", 0, 0⟩ ⟨0, -10.46⟩
        (fun n => if n = 0 then ⟨0, 0, 0⟩ else ⟨0, 2, 0⟩) := by
  refine ⟨rfl, ?_⟩
  have e1 : coords_as_alt_az ⟨"M1", 0, 0⟩ ⟨0, -10.46⟩ (fun _ => ⟨0, 0, 0⟩)
      = calculate_alt_az 90 0 ⟨0, -10.46⟩ := by
    simp only [coords_as_alt_az]
    rw [lst_eval_read_zero]
    norm_num
  have e2 : coords_as_alt_az ⟨"M1", 0, 0⟩ ⟨0, -10.46⟩
        (fun n => if n = 0 then ⟨0, 0, 0⟩ else ⟨0, 2, 0⟩)
      = calculate_alt_az 120 0 ⟨0, -10.46⟩ := by
    have hr0 : (if (0 : ℕ) = 0 then (⟨0, 0, 0⟩ : Instant) else ⟨0, 2, 0⟩) = (⟨0, 0, 0⟩ : Instant) := rfl
    have hr1 : (if (1 : ℕ) = 0 then (⟨0, 0, 0⟩ : Instant) else ⟨0, 2, 0⟩) = (⟨0, 2, 0⟩ : Instant) := rfl
    simp only [coords_as_alt_az, hr0, hr1, if_true, ite_true]
    rw [lst_eval_read_two]
    norm_num
  rw [e1, e2, calc_alt_az_ninety ⟨0, -10.46⟩ rfl, calc_alt_az_onetwenty ⟨0, -10.46⟩ rfl]
  intro h
  have h1 := congrArg Prod.fst h
  norm_num at h1
